import Mathlib

/-!
Verification of the gke-windows-builder orchestrator (GoogleCloudPlatform/
kubernetes-engine-windows-tools) against its natural-language specification.

The Go sources are shallowly embedded: pure helpers become Lean functions,
and every interaction with the outside world (GCE API calls, WinRM sessions,
serial-console polling) is passed in as an explicit environment value, so
each Go function's control flow over those results is reproduced faithfully.
Go `time.Duration` is embedded as `Int` (nanoseconds); Go `error` as
`Option GoError`; a Go runtime panic as the `.error` side of an `Except`.
-/

namespace GkeWindowsBuilder

/-- Embedding of Go `error` values as the builder observes them:
`googleapi.Error` carries a numeric code and a message (what
`errors.As(err, &gceAPIErr)` extracts); every other error is just a
message; `fmt.Errorf` wrapping keeps the wrapped error. -/
inductive GoError where
  | gceAPIError (code : Nat) (message : String)
  | simple (message : String)
  | wrapped (context : String) (inner : GoError)
deriving DecidableEq, Repr

deriving instance DecidableEq for Except

/-- `needle` occurs at the head of `hay`. -/
def charsStartWith : List Char → List Char → Bool
  | [], _ => true
  | _ :: _, [] => false
  | n :: ns, h :: hs => n == h && charsStartWith ns hs

/-- `needle` occurs somewhere in `hay`. -/
def charsContain (needle : List Char) : List Char → Bool
  | [] => charsStartWith needle []
  | h :: hs => charsStartWith needle (h :: hs) || charsContain needle hs

/-- Embedding of Go `strings.Contains(s, sub)`. -/
def goStringContains (s sub : String) : Bool :=
  charsContain sub.data s.data

/-- Embedding of Go `strings.Split(s, sep)` for a one-character separator
(the builder only splits on `"\n"`, `","`, `"="` and `"/"`). -/
def goStringSplitChar (s : String) (sep : Char) : List String :=
  (s.data.splitOn sep).map (fun cs => String.mk cs)

/-- The `RemoteWindowsServer` struct of remote.go (pointer fields
dereferenced; `WorkspaceBucket` is set before use). -/
structure RemoteWindowsServer where
  Hostname : String
  Username : String
  Password : String
  WorkspaceBucket : String
  WorkspaceFolder : String
deriving DecidableEq, Repr

/-- The `Server` struct of gce.go: a GCE instance together with its embedded
`RemoteWindowsServer` (the API-client fields carry no builder state). -/
structure Server where
  instanceName : String
  remote : RemoteWindowsServer
deriving DecidableEq, Repr

/-- The `builderServerStatus` struct of main.go: a builder server and its
associated error, the per-version build outcome. -/
structure BuilderServerStatus where
  s : Option Server
  err : Option GoError
deriving DecidableEq, Repr

/-- `isImageNotFoundErr` of main.go: the error is a `googleapi.Error` with
code 404 whose message names the image family. -/
def isImageNotFoundErr (err : GoError) (imageFamily : String) : Bool :=
  match err with
  | .gceAPIError code message => code == 404 && goStringContains message imageFamily
  | _ => false

/-- A Go buffered channel as the orchestrator uses one: created with a fixed
capacity, appended to by each completed task. -/
structure Chan (α : Type) where
  capacity : Nat
  buffer : List α
deriving DecidableEq, Repr

/-- `make(chan builderServerStatus, n)`. -/
def Chan.mk0 (α : Type) (n : Nat) : Chan α := ⟨n, []⟩

/-- `ch <- x`. -/
def Chan.send {α : Type} (c : Chan α) (x : α) : Chan α :=
  { c with buffer := c.buffer ++ [x] }

/-- The goroutine fan-out of `buildSingleArchContainers`: one task per entry
of `pickedVersionMap`, each sending exactly one `builderServerStatus` into
the shared channel (`wg.Wait()` is the point at which all sends are in the
buffer, which the synchronous embedding reaches at the end of the fold). -/
def launchBuildTasks (buildOne : String → String → BuilderServerStatus)
    (pickedVersionMap : List (String × String)) (c : Chan BuilderServerStatus) :
    Chan BuilderServerStatus :=
  pickedVersionMap.foldl (fun c p => c.send (buildOne p.1 p.2)) c

/-- The post-join half of `buildSingleArchContainers`: compare the number of
buffered statuses with the number of versions, drain the channel into `*bss`,
then fail on the first status carrying an error. Returns the final value of
`*bss` together with the function's error result. -/
def buildSingleArchContainersCore (pickedVersionMap : List (String × String))
    (chBuffer : List BuilderServerStatus) (bss : List BuilderServerStatus) :
    List BuilderServerStatus × Option GoError :=
  if chBuffer.length ≠ pickedVersionMap.length then
    (bss, some (.simple "Unexpected discrepancy happened, the number of builder server statuses in channel is not equal to length of pickedVersionMap"))
  else
    match ((bss ++ chBuffer).filterMap (fun bs => bs.err)).head? with
    | some e => (bss ++ chBuffer, some (.wrapped "Error happened when building single-arch containers" e))
    | none => (bss ++ chBuffer, none)

/-- `buildSingleArchContainers` of main.go: make a channel buffered to the
version count, fan out one build task per version, join, and aggregate. -/
def buildSingleArchContainers (pickedVersionMap : List (String × String))
    (buildOne : String → String → BuilderServerStatus)
    (bss : List BuilderServerStatus) :
    List BuilderServerStatus × Option GoError :=
  let ch := launchBuildTasks buildOne pickedVersionMap
    (Chan.mk0 BuilderServerStatus pickedVersionMap.length)
  buildSingleArchContainersCore pickedVersionMap ch.buffer bss

/-- `constructArgsOfManifestCreateCommand` of main.go: the bare image name
followed by one `_`-suffixed reference per entry of `pickedVersionMap`. -/
def constructArgsOfManifestCreateCommand (containerImageName : String)
    (pickedVersionMap : List (String × String)) : String :=
  pickedVersionMap.foldl
    (fun args p => args ++ " " ++ containerImageName ++ "_" ++ p.1)
    containerImageName

/-- The loop of `buildMultiArchContainer`: walk the outcomes, and on every
outcome holding a server while no manifest has been created yet, run the
manifest create+push command there; a failure is logged and the walk goes
on. Also records the servers on which the command was attempted. -/
def manifestLoop (runManifest : Server → Option GoError) :
    List BuilderServerStatus → Bool → List Server → Bool × List Server
  | [], isManifestCreated, attempts => (isManifestCreated, attempts)
  | bs :: rest, isManifestCreated, attempts =>
    match bs.s with
    | some srv =>
      if isManifestCreated then manifestLoop runManifest rest isManifestCreated attempts
      else
        match runManifest srv with
        | some _ => manifestLoop runManifest rest false (attempts ++ [srv])
        | none => manifestLoop runManifest rest true (attempts ++ [srv])
    | none => manifestLoop runManifest rest isManifestCreated attempts

/-- `buildMultiArchContainer` of main.go. `runManifest srv args` is
`createMultiArchContainerOnRemote(&srv.RemoteWindowsServer, name, args,
commandTimeout)`. -/
def buildMultiArchContainer (containerImageName : String)
    (pickedVersionMap : List (String × String))
    (runManifest : Server → String → Option GoError)
    (bss : List BuilderServerStatus) : Option GoError :=
  if (manifestLoop
      (fun srv => runManifest srv
        (constructArgsOfManifestCreateCommand containerImageName pickedVersionMap))
      bss false []).1 then none
  else some (.simple "Failed to create the final multi-arch manifest")

/-- The servers on which `buildMultiArchContainer` attempts the manifest
create+push command, in order. -/
def manifestAttempts (containerImageName : String)
    (pickedVersionMap : List (String × String))
    (runManifest : Server → String → Option GoError)
    (bss : List BuilderServerStatus) : List Server :=
  (manifestLoop
    (fun srv => runManifest srv
      (constructArgsOfManifestCreateCommand containerImageName pickedVersionMap))
    bss false []).2

/-- The teardown actions `shutdownBuildServers` issues. -/
inductive ServerAction where
  | deleteInstance (srv : Server)
  | cleanFolder (srv : Server)
deriving DecidableEq, Repr

/-- `shutdownBuildServers` of main.go: with `--reuse-builder-instances` set,
every outcome holding a server has its workspace folder cleaned; otherwise
every such instance is deleted. -/
def shutdownBuildServers (reuseBuilderInstances : Bool)
    (bss : List BuilderServerStatus) : List ServerAction :=
  if reuseBuilderInstances then
    bss.filterMap (fun bsc => bsc.s.map (fun srv => ServerAction.cleanFolder srv))
  else
    bss.filterMap (fun bsc => bsc.s.map (fun srv => ServerAction.deleteInstance srv))

/-- The per-version external world of `buildSingleArchContainer`, one field
per call the Go function makes: `builder.FindExistingInstance` (a server or
nil, and an error), `builder.NewServer`, `r.WaitForServerBeReady`, `r.Copy`
and `buildSingleArchContainerOnRemote`. -/
structure BuildEnv where
  findExisting : Option Server × Option GoError
  newServer : Except GoError Server
  waitReady : Server → Option GoError
  copyWorkspace : Server → Option GoError
  buildRemote : Server → Option GoError

/-- The tail of `buildSingleArchContainer` once a server `srv` is at hand:
wait for readiness, copy the workspace, run the single-arch build; each
failure is returned as the outcome's error with the server attached. -/
def buildOnServer (env : BuildEnv) (srv : Server) : BuilderServerStatus :=
  match env.waitReady srv with
  | some e => ⟨some srv, some e⟩
  | none =>
    match env.copyWorkspace srv with
    | some e => ⟨some srv, some e⟩
    | none =>
      match env.buildRemote srv with
      | some e => ⟨some srv, some e⟩
      | none => ⟨some srv, none⟩

/-- `buildSingleArchContainer` of main.go. `reuseBuilderInstances` is the
*flag pointer* (`none` embeds a nil `*bool`): the Go guard is
`if reuseBuilderInstances != nil`, so the existing-instance lookup runs
whenever the pointer is non-nil, whatever boolean it points to. If no server
was found, create one; a creation error recognized by `isImageNotFoundErr`
yields the outcome `{nil, nil}` (version skipped). -/
def buildSingleArchContainer (reuseBuilderInstances : Option Bool)
    (env : BuildEnv) (imageFamily : String) : BuilderServerStatus :=
  let found := if reuseBuilderInstances.isSome then env.findExisting else (none, none)
  match found.1 with
  | some srv => buildOnServer env srv
  | none =>
    match env.newServer with
    | .error e =>
      if isImageNotFoundErr e imageFamily then ⟨none, none⟩
      else ⟨none, some e⟩
    | .ok srv => buildOnServer env srv

/-- `process` of main.go: build all single-arch containers, then the
multi-arch manifest. Returns the process error together with the outcome
list the deferred `shutdownBuildServers(bss)` will see. -/
def process (reuseBuilderInstances : Option Bool) (containerImageName : String)
    (pickedVersionMap : List (String × String))
    (envOf : String → String → BuildEnv)
    (runManifest : Server → String → Option GoError) :
    Option GoError × List BuilderServerStatus :=
  match buildSingleArchContainers pickedVersionMap
    (fun ver imageFamily =>
      buildSingleArchContainer reuseBuilderInstances (envOf ver imageFamily) imageFamily) [] with
  | (bss, some e) => (some e, bss)
  | (bss, none) =>
    (buildMultiArchContainer containerImageName pickedVersionMap runManifest bss, bss)

/-- How a run of `main` ends after project setup: `log.Fatalf` on a setup
error, `log.Fatalf` on a process error, or normal completion. -/
inductive MainOutcome where
  | fatalSetup (e : GoError)
  | fatalProcess (e : GoError)
  | completed
deriving DecidableEq, Repr

/-- The tail of `main` of main.go: a `setupProjectForBuilder` error
terminates the program before `process` — instance creation — runs; the
thunk models that `process` is only forced in the success branch. -/
def mainAfterSetup (setupErr : Option GoError)
    (processRun : Unit → Option GoError) : MainOutcome :=
  match setupErr with
  | some e => .fatalSetup e
  | none =>
    match processRun () with
    | some e => .fatalProcess e
    | none => .completed

/-! ## network.go -/

/-- `computeUrlPrefix` of gce.go. -/
def computeUrlPrefix : String := "https://www.googleapis.com/compute/v1/projects/"

/-- The `InstanceNetworkConfig` struct of network.go (pointer fields
dereferenced; a flag left unset is the empty string). -/
structure InstanceNetworkConfig where
  Network : String
  NetworkProject : String
  Subnet : String
  SubnetProject : String
  Region : String
deriving DecidableEq, Repr

/-- `usingSharedVPC` of network.go: `--subnetwork-project` given while
`--network-project` is not. -/
def usingSharedVPC (netConfig : InstanceNetworkConfig) : Bool :=
  netConfig.SubnetProject != "" && netConfig.NetworkProject == ""

/-- `NewInstanceNetworkConfig` of network.go: under Shared VPC the flags are
taken as given; otherwise empty network/subnetwork projects default to the
instance project. -/
def NewInstanceNetworkConfig (instanceProject network networkProject subnet
    subnetProject region : String) : InstanceNetworkConfig :=
  if usingSharedVPC ⟨network, networkProject, subnet, subnetProject, region⟩ then
    ⟨network, networkProject, subnet, subnetProject, region⟩
  else
    ⟨network,
      if networkProject == "" then instanceProject else networkProject,
      subnet,
      if subnetProject == "" then instanceProject else subnetProject,
      region⟩

/-- `ProjectNetworkUrls` of network.go, used by the firewall check: an empty
network url means the network is left blank (inferred) in later calls. -/
def ProjectNetworkUrls (netConfig : InstanceNetworkConfig)
    (instanceProject : String) : String × String :=
  if usingSharedVPC netConfig then
    ("", computeUrlPrefix ++ netConfig.SubnetProject
      ++ "/global/networks/" ++ netConfig.Subnet)
  else
    (computeUrlPrefix ++ netConfig.NetworkProject ++ "/global/networks/"
        ++ netConfig.Network,
      computeUrlPrefix ++ netConfig.SubnetProject
        ++ "/global/networks/" ++ netConfig.Subnet)

/-- `InstanceNetworkUrls` of network.go, used during instance creation: an
empty network url means the network is not specified and is inferred by the
GCE API. -/
def InstanceNetworkUrls (netConfig : InstanceNetworkConfig)
    (instanceProject : String) : String × String :=
  if usingSharedVPC netConfig then
    ("", computeUrlPrefix ++ netConfig.SubnetProject ++ "/regions/"
      ++ netConfig.Region ++ "/subnetworks/" ++ netConfig.Subnet)
  else
    (computeUrlPrefix ++ netConfig.SubnetProject ++ "/global/networks/"
        ++ netConfig.Network,
      computeUrlPrefix ++ netConfig.SubnetProject ++ "/regions/"
        ++ netConfig.Region ++ "/subnetworks/" ++ netConfig.Subnet)

/-- One entry of a `compute.Firewall`'s `Allowed` list. -/
structure FirewallAllowed where
  IPProtocol : String
  Ports : List String
deriving DecidableEq, Repr

/-- The fields of a `compute.Firewall` rule that `winRMIngressIsAllowed`
reads. -/
structure FirewallRule where
  Network : String
  Direction : String
  SourceRanges : List String
  Disabled : Bool
  Allowed : List FirewallAllowed
deriving DecidableEq, Repr

/-- The condition `winRMIngressIsAllowed` evaluates for one `allowed` entry
of one rule, in Go evaluation order: `rule.SourceRanges[0]` is only reached
when the network, direction and protocol parts hold, and on an empty
`SourceRanges` slice it is a runtime panic (index out of range), embedded as
the `.error` side. `.ok true` means the entry allows port 5986. -/
def allowedEntryCheck (networkUrl : String) (rule : FirewallRule)
    (allowed : FirewallAllowed) : Except String Bool :=
  if rule.Network == networkUrl && rule.Direction == "INGRESS"
      && allowed.IPProtocol == "tcp" then
    match rule.SourceRanges with
    | [] => .error "runtime error: index out of range [0] with length 0"
    | sr0 :: _ =>
      if sr0 == "0.0.0.0/0" && !rule.Disabled then
        .ok (allowed.Ports.contains "5986")
      else .ok false
  else .ok false

/-- The inner loop of `winRMIngressIsAllowed` over one rule's `Allowed`
entries. -/
def scanAllowed (networkUrl : String) (rule : FirewallRule) :
    List FirewallAllowed → Except String Bool
  | [] => .ok false
  | a :: rest =>
    match allowedEntryCheck networkUrl rule a with
    | .error p => .error p
    | .ok true => .ok true
    | .ok false => scanAllowed networkUrl rule rest

/-- The outer loop of `winRMIngressIsAllowed` over the listed rules. -/
def scanRules (networkUrl : String) : List FirewallRule → Except String Bool
  | [] => .ok false
  | rule :: rest =>
    match scanAllowed networkUrl rule rule.Allowed with
    | .error p => .error p
    | .ok true => .ok true
    | .ok false => scanRules networkUrl rest

/-- `winRMIngressIsAllowed` of network.go. `firewallsOf` embeds
`service.Firewalls.List(networkProject).Do()`; a listing error is logged and
the function returns false. -/
def winRMIngressIsAllowed (firewallsOf : String → Except GoError (List FirewallRule))
    (networkProject networkUrl : String) : Except String Bool :=
  match firewallsOf networkProject with
  | .error _ => .ok false
  | .ok firewalls => scanRules networkUrl firewalls

/-- The remediation message `CheckProjectFirewalls` builds when a project
lacks the WinRM ingress rule. -/
def firewallRemediationMsg (proj url : String) : String :=
  "Project " ++ proj ++ " does not have a firewall rule to allow WinRM ingress. Please run:\n  "
    ++ "gcloud compute firewall-rules create" ++ " --project=" ++ proj
    ++ " allow-winrm-ingress --allow=tcp:5986 --direction=INGRESS --network=" ++ url

/-- The loop of `CheckProjectFirewalls` over the (project, url) pairs:
an empty url is skipped; a project whose network fails the WinRM check
yields the remediation error. A panic propagates. -/
def checkFirewallPairs (firewallsOf : String → Except GoError (List FirewallRule)) :
    List (String × String) → Except String (Option GoError)
  | [] => .ok none
  | (proj, url) :: rest =>
    if url == "" then checkFirewallPairs firewallsOf rest
    else
      match winRMIngressIsAllowed firewallsOf proj url with
      | .error p => .error p
      | .ok true => checkFirewallPairs firewallsOf rest
      | .ok false => .ok (some (.simple (firewallRemediationMsg proj url)))

/-- `CheckProjectFirewalls` of network.go: resolve the project-level urls and
check the network project against the network url and the subnetwork project
against the subnetwork url. `gceServiceErr` embeds a `newGCEService`
failure. -/
def CheckProjectFirewalls (gceServiceErr : Option GoError)
    (firewallsOf : String → Except GoError (List FirewallRule))
    (netConfig : InstanceNetworkConfig) (instanceProject : String) :
    Except String (Option GoError) :=
  match gceServiceErr with
  | some e => .ok (some (.wrapped "Failed to start GCE service for setup" e))
  | none =>
    let urls := ProjectNetworkUrls netConfig instanceProject
    checkFirewallPairs firewallsOf
      [(netConfig.NetworkProject, urls.1), (netConfig.SubnetProject, urls.2)]

/-! ## remote.go: Copy and RunCommand -/

/-- The network-touching calls `Copy` and `RunCommand` can make, recorded as
a trace so that "no network call attempted" is a statement about the
embedding. -/
inductive RemoteCall where
  | winrmcpNew
  | copyViaBucket
  | directCopy
  | winrmNewClient
  | createShell
  | execute (cmdstring : String)
deriving DecidableEq, Repr

/-- The external world of `RunCommand`: the WinRM client construction, the
shell creation, and the execution of the command string (an `.ok` result is
the remote exit code). -/
structure RunCommandEnv where
  newClient : Except GoError Unit
  createShell : Except GoError Unit
  execute : String → Except GoError Int

/-- `RunCommand` of remote.go: reject a non-positive timeout before anything
else, then `cd` into `path`, execute, and map a non-zero exit code to an
error naming it. Returns the error result and the calls made. -/
def RunCommand (env : RunCommandEnv) (command path : String)
    (runTimeout : Int) : Option GoError × List RemoteCall :=
  if runTimeout ≤ 0 then
    (some (.simple "runTimeout must be greater than 0"), [])
  else
    let cmdstring := "cd " ++ path ++ " & " ++ command
    match env.newClient with
    | .error e => (some e, [.winrmNewClient])
    | .ok _ =>
      match env.createShell with
      | .error e => (some e, [.winrmNewClient, .createShell])
      | .ok _ =>
        match env.execute cmdstring with
        | .error e => (some e, [.winrmNewClient, .createShell, .execute cmdstring])
        | .ok exitCode =>
          (if exitCode ≠ 0 then
            some (.simple ("command failed with exit-code:" ++ toString exitCode))
          else none, [.winrmNewClient, .createShell, .execute cmdstring])

/-- The external world of `Copy`: the `winrmcp.New` connection construction,
the bucket-mediated transfer (`copyViaBucket`) and the direct streaming copy
fallback (`c.Copy`). -/
structure CopyEnv where
  winrmcpNew : Except GoError Unit
  copyViaBucket : Option GoError
  directCopy : Option GoError

/-- `Copy` of remote.go: reject a non-positive copy timeout before creating
the winrmcp connection; then try the bucket path and fall back to the direct
copy. Returns the error result and the calls made. -/
def Copy (env : CopyEnv) (inputPath : String) (copyTimeout : Int) :
    Option GoError × List RemoteCall :=
  if copyTimeout ≤ 0 then
    (some (.simple "copy timeout must be greater than 0"), [])
  else
    match env.winrmcpNew with
    | .error e => (some e, [.winrmcpNew])
    | .ok _ =>
      match env.copyViaBucket with
      | none => (none, [.winrmcpNew, .copyViaBucket])
      | some _ =>
        match env.directCopy with
        | some e => (some e, [.winrmcpNew, .copyViaBucket, .directCopy])
        | none => (none, [.winrmcpNew, .copyViaBucket, .directCopy])

/-! ## gce.go: resetWindowsPassword -/

/-- The fields of the `WindowsPasswordResponse` struct of gce.go that the
poll loop reads. -/
structure WindowsPasswordResponse where
  Modulus : String
  EncryptedPassword : String
deriving DecidableEq, Repr

/-- One line of serial-console output as `json.Unmarshal` sees it: either it
fails to parse, or it yields a `WindowsPasswordResponse`. -/
inductive ConsoleLine where
  | malformed (raw : String)
  | response (wpr : WindowsPasswordResponse)
deriving DecidableEq, Repr

/-- The cryptographic externals of the poll loop:
`base64.StdEncoding.DecodeString` on the ciphertext and
`rsa.DecryptOAEP(sha1, …, wpc.key, …)` with the private key generated for
this exchange. -/
structure CryptoEnv where
  base64Decode : String → Except GoError (List Nat)
  decryptOAEP : List Nat → Except GoError String

/-- A console line makes the loop advance to the next line: it failed to
parse, or its modulus differs from the submitted one. -/
def lineSkipped (submittedModulus : String) : ConsoleLine → Bool
  | .malformed _ => true
  | .response wpr => wpr.Modulus != submittedModulus

/-- The inner loop of `resetWindowsPassword` over the lines of one serial
console read: an unparseable line or a modulus mismatch is skipped; on the
first matching modulus the function returns — a base64 or OAEP failure as a
terminal error, otherwise the decrypted password. `none` means the read held
no matching line and polling continues. -/
def processResponses (submittedModulus : String) (env : CryptoEnv) :
    List ConsoleLine → Option (Except GoError String)
  | [] => none
  | line :: rest =>
    match line with
    | .malformed _ => processResponses submittedModulus env rest
    | .response wpr =>
      if wpr.Modulus == submittedModulus then
        some (match env.base64Decode wpr.EncryptedPassword with
          | .error e => .error e
          | .ok decodedPassword =>
            match env.decryptOAEP decodedPassword with
            | .error e => .error e
            | .ok password => .ok password)
      else processResponses submittedModulus env rest

/-- The outer poll loop of `resetWindowsPassword`: each list element is one
`GetSerialPortOutput` read, made every ~2 seconds; the list length embeds
the 5-minute deadline, after which the timeout error is returned. A failed
read is itself a terminal error (`return "", err`). -/
def pollForPassword (submittedModulus : String) (env : CryptoEnv) :
    List (Except GoError (List ConsoleLine)) → Except GoError String
  | [] => .error (.simple "Could not retrieve password before timeout")
  | poll :: laterPolls =>
    match poll with
    | .error e => .error e
    | .ok responses =>
      match processResponses submittedModulus env responses with
      | some result => result
      | none => pollForPassword submittedModulus env laterPolls

/-- `resetWindowsPassword` of gce.go after key generation: write the public
key into the instance metadata (`setMetadataErr`), wait for the operation
(`waitOpErr`), then poll the serial console for the encrypted password. -/
def resetWindowsPassword (setMetadataErr waitOpErr : Option GoError)
    (submittedModulus : String) (env : CryptoEnv)
    (polls : List (Except GoError (List ConsoleLine))) : Except GoError String :=
  match setMetadataErr with
  | some e => .error e
  | none =>
    match waitOpErr with
    | some e => .error e
    | none => pollForPassword submittedModulus env polls

/-! ## Helper lemmas -/

theorem charsStartWith_append (n t : List Char) : charsStartWith n (n ++ t) = true := by
  induction n with
  | nil => rfl
  | cons c cs ih => simp [charsStartWith, ih]

theorem charsContain_nil_left (l : List Char) : charsContain [] l = true := by
  cases l with
  | nil => rfl
  | cons c cs => simp [charsContain, charsStartWith]

theorem charsContain_of_infix (n pre suf : List Char) :
    charsContain n (pre ++ n ++ suf) = true := by
  induction pre with
  | nil =>
    cases hn : n with
    | nil => simpa [hn] using charsContain_nil_left suf
    | cons c cs =>
      simp only [List.nil_append]
      rw [← hn]
      cases hh : n ++ suf with
      | nil =>
        rw [hn] at hh; simp at hh
      | cons d ds =>
        simp only [charsContain, hh]
        rw [← hh, charsStartWith_append]
        rfl
  | cons c cs ih =>
    have h1 : (c :: cs) ++ n ++ suf = c :: (cs ++ n ++ suf) := by simp
    rw [h1]
    show (charsStartWith n (c :: (cs ++ n ++ suf)) || charsContain n (cs ++ n ++ suf)) = true
    rw [ih, Bool.or_true]

theorem goStringContains_of_parts (pre mid suf : String) :
    goStringContains (pre ++ mid ++ suf) mid = true := by
  unfold goStringContains
  rw [String.data_append, String.data_append]
  exact charsContain_of_infix mid.data pre.data suf.data

theorem stringAppend_ne_empty (a b : String) (h : a.length ≠ 0) : a ++ b ≠ "" := by
  intro hc
  have hl := congrArg String.length hc
  rw [String.length_append] at hl
  have h0 : ("" : String).length = 0 := rfl
  omega

theorem launchBuildTasks_buffer (buildOne : String → String → BuilderServerStatus)
    (m : List (String × String)) (c : Chan BuilderServerStatus) :
    (launchBuildTasks buildOne m c).buffer
      = c.buffer ++ m.map (fun p => buildOne p.1 p.2) := by
  induction m generalizing c with
  | nil => simp [launchBuildTasks]
  | cons p rest ih =>
    simp only [launchBuildTasks, List.foldl_cons, List.map_cons]
    rw [show List.foldl (fun c p => c.send (buildOne p.1 p.2)) (c.send (buildOne p.1 p.2)) rest
      = launchBuildTasks buildOne rest (c.send (buildOne p.1 p.2)) from rfl]
    rw [ih]
    simp [Chan.send]

theorem launchBuildTasks_capacity (buildOne : String → String → BuilderServerStatus)
    (m : List (String × String)) (c : Chan BuilderServerStatus) :
    (launchBuildTasks buildOne m c).capacity = c.capacity := by
  induction m generalizing c with
  | nil => simp [launchBuildTasks]
  | cons p rest ih =>
    simp only [launchBuildTasks, List.foldl_cons]
    rw [show List.foldl (fun c p => c.send (buildOne p.1 p.2)) (c.send (buildOne p.1 p.2)) rest
      = launchBuildTasks buildOne rest (c.send (buildOne p.1 p.2)) from rfl]
    rw [ih]
    simp [Chan.send]

theorem buildSingleArchContainers_eq (m : List (String × String))
    (buildOne : String → String → BuilderServerStatus) (bss : List BuilderServerStatus) :
    buildSingleArchContainers m buildOne bss
      = buildSingleArchContainersCore m (m.map (fun p => buildOne p.1 p.2)) bss := by
  unfold buildSingleArchContainers
  simp only [launchBuildTasks_buffer, Chan.mk0, List.nil_append]

theorem failFast_aux (m : List (String × String))
    (buildOne : String → String → BuilderServerStatus) (bss0 : List BuilderServerStatus)
    (h : ∃ p ∈ m, ((buildOne p.1 p.2).err).isSome = true) :
    ((buildSingleArchContainers m buildOne bss0).2).isSome = true := by
  rw [buildSingleArchContainers_eq]
  unfold buildSingleArchContainersCore
  rw [if_neg (by simp)]
  obtain ⟨p, hp, herr⟩ := h
  have hmem : buildOne p.1 p.2 ∈ bss0 ++ m.map (fun p => buildOne p.1 p.2) :=
    List.mem_append_right _ (List.mem_map_of_mem _ hp)
  have hne : (bss0 ++ m.map fun p => buildOne p.1 p.2).filterMap (fun bs => bs.err) ≠ [] := by
    intro hnil
    rw [List.filterMap_eq_nil_iff] at hnil
    have := hnil _ hmem
    rw [this] at herr
    simp at herr
  cases hh : ((bss0 ++ m.map fun p => buildOne p.1 p.2).filterMap (fun bs => bs.err)).head? with
  | none => exact absurd (List.head?_eq_none_iff.mp hh) hne
  | some e => simp [hh]

/-- C1: if any build outcome of the concurrent single-arch phase carries a
non-nil error, `buildSingleArchContainers` returns an error — even when
every other outcome succeeded (the statement quantifies over all outcome
assignments) — and `process` therefore fails the run. -/
theorem buildSingleArchContainers_fail_fast (m : List (String × String))
    (buildOne : String → String → BuilderServerStatus) (bss0 : List BuilderServerStatus)
    (reuseBuilderInstances : Option Bool) (containerImageName : String)
    (envOf : String → String → BuildEnv) (runManifest : Server → String → Option GoError)
    (h : ∃ p ∈ m, ((buildOne p.1 p.2).err).isSome = true)
    (hlink : ∀ p ∈ m, buildOne p.1 p.2
      = buildSingleArchContainer reuseBuilderInstances (envOf p.1 p.2) p.2) :
    ((buildSingleArchContainers m buildOne bss0).2).isSome = true
    ∧ ((process reuseBuilderInstances containerImageName m envOf runManifest).1).isSome = true := by
  refine ⟨failFast_aux m buildOne bss0 h, ?_⟩
  unfold process
  have h2 : ∃ p ∈ m, ((buildSingleArchContainer reuseBuilderInstances (envOf p.1 p.2) p.2).err).isSome = true := by
    obtain ⟨p, hp, herr⟩ := h
    exact ⟨p, hp, by rw [← hlink p hp]; exact herr⟩
  have hfail := failFast_aux m
    (fun ver imageFamily => buildSingleArchContainer reuseBuilderInstances (envOf ver imageFamily) imageFamily)
    [] h2
  rcases hr : buildSingleArchContainers m
      (fun ver imageFamily => buildSingleArchContainer reuseBuilderInstances (envOf ver imageFamily) imageFamily)
      [] with ⟨bss1, err1⟩
  rw [hr] at hfail
  cases err1 with
  | none => simp at hfail
  | some e => simp

/-- C1 witness: a two-version run where the second version's build fails. -/
theorem buildSingleArchContainers_fail_fast_witness :
    (∃ p ∈ [("2004", "famA"), ("ltsc2019", "famB")],
      (((fun (_ : String) (fam : String) =>
        if fam = "famB" then BuilderServerStatus.mk none (some (.simple "build failed"))
        else BuilderServerStatus.mk none none) p.1 p.2).err).isSome = true)
    ∧ ((buildSingleArchContainers [("2004", "famA"), ("ltsc2019", "famB")]
      (fun (_ : String) (fam : String) =>
        if fam = "famB" then BuilderServerStatus.mk none (some (.simple "build failed"))
        else BuilderServerStatus.mk none none) []).2).isSome = true :=
  ⟨by decide, (buildSingleArchContainers_fail_fast
    [("2004", "famA"), ("ltsc2019", "famB")]
    (fun (_ : String) (fam : String) =>
      if fam = "famB" then BuilderServerStatus.mk none (some (.simple "build failed"))
      else BuilderServerStatus.mk none none) []
    (some false) "img:tag"
    (fun _ fam => ⟨(none, none),
      .error (if fam = "famB" then .simple "build failed"
        else .gceAPIError 404 "resource famA not found"),
      fun _ => none, fun _ => none, fun _ => none⟩)
    (fun _ _ => none)
    (by decide)
    (by decide)).1⟩

/-- C3: for a picked version map of size N the fan-out phase makes a channel
of capacity N, launches one task per version so the joined channel buffers
exactly N results, and the drain appends exactly those N results to `*bss`
(none dropped); on any buffered-result count other than N the post-join code
returns the internal-consistency error and leaves `*bss` untouched. -/
theorem buildSingleArchContainers_count_invariant (m : List (String × String))
    (buildOne : String → String → BuilderServerStatus) (bss0 : List BuilderServerStatus) :
    (launchBuildTasks buildOne m (Chan.mk0 BuilderServerStatus m.length)).capacity = m.length
    ∧ (launchBuildTasks buildOne m (Chan.mk0 BuilderServerStatus m.length)).buffer.length = m.length
    ∧ (buildSingleArchContainers m buildOne bss0).1
        = bss0 ++ (launchBuildTasks buildOne m (Chan.mk0 BuilderServerStatus m.length)).buffer
    ∧ (∀ chBuffer : List BuilderServerStatus, chBuffer.length ≠ m.length →
        buildSingleArchContainersCore m chBuffer bss0
          = (bss0, some (.simple "Unexpected discrepancy happened, the number of builder server statuses in channel is not equal to length of pickedVersionMap"))) := by
  refine ⟨?_, ?_, ?_, ?_⟩
  · rw [launchBuildTasks_capacity]; rfl
  · rw [launchBuildTasks_buffer]; simp [Chan.mk0]
  · rw [buildSingleArchContainers_eq, launchBuildTasks_buffer]
    simp only [Chan.mk0, List.nil_append]
    unfold buildSingleArchContainersCore
    rw [if_neg (by simp)]
    cases ((bss0 ++ m.map fun p => buildOne p.1 p.2).filterMap fun bs => bs.err).head? <;> rfl
  · intro chBuffer hne
    unfold buildSingleArchContainersCore
    rw [if_pos hne]

/-- C3 witness: a concrete two-version map, and a corrupted channel holding
a single result. -/
theorem buildSingleArchContainers_count_invariant_witness :
    (launchBuildTasks (fun _ _ => BuilderServerStatus.mk none none)
      [("2004", "famA"), ("20H2", "famB")]
      (Chan.mk0 BuilderServerStatus 2)).buffer.length = 2
    ∧ buildSingleArchContainersCore [("2004", "famA"), ("20H2", "famB")]
        [BuilderServerStatus.mk none none] []
        = ([], some (.simple "Unexpected discrepancy happened, the number of builder server statuses in channel is not equal to length of pickedVersionMap")) := by
  have h := buildSingleArchContainers_count_invariant
    [("2004", "famA"), ("20H2", "famB")] (fun _ _ => BuilderServerStatus.mk none none) []
  exact ⟨h.2.1, h.2.2.2 [BuilderServerStatus.mk none none] (by decide)⟩

/-- `manifestLoop` restricted to the servers of the outcomes (the entries
with a nil server are skipped unchanged). -/
def handlesLoop (runM : Server → Option GoError) :
    List Server → Bool → List Server → Bool × List Server
  | [], isManifestCreated, attempts => (isManifestCreated, attempts)
  | srv :: rest, isManifestCreated, attempts =>
    if isManifestCreated then handlesLoop runM rest isManifestCreated attempts
    else
      match runM srv with
      | some _ => handlesLoop runM rest false (attempts ++ [srv])
      | none => handlesLoop runM rest true (attempts ++ [srv])

theorem manifestLoop_eq_handlesLoop (runM : Server → Option GoError)
    (bss : List BuilderServerStatus) (c : Bool) (a : List Server) :
    manifestLoop runM bss c a = handlesLoop runM (bss.filterMap (fun bs => bs.s)) c a := by
  induction bss generalizing c a with
  | nil => rfl
  | cons bs rest ih =>
    cases hs : bs.s with
    | none => simp [manifestLoop, handlesLoop, hs, List.filterMap_cons, ih]
    | some srv =>
      simp only [manifestLoop, hs, List.filterMap_cons, handlesLoop]
      by_cases hc : c
      · simp [hc, ih]
      · simp only [hc, if_false, Bool.false_eq_true]
        cases runM srv <;> simp [ih]

theorem handlesLoop_created (runM : Server → Option GoError)
    (hs : List Server) (c : Bool) (a : List Server) :
    (handlesLoop runM hs c a).1 = (c || hs.any (fun srv => (runM srv).isNone)) := by
  induction hs generalizing c a with
  | nil => simp [handlesLoop]
  | cons srv rest ih =>
    simp only [handlesLoop, List.any_cons]
    by_cases hc : c
    · simp [hc, ih]
    · simp only [hc, if_false, Bool.false_eq_true, Bool.false_or]
      cases h : runM srv with
      | some e => simp [ih, h]
      | none => simp [ih, h]

theorem handlesLoop_attempts_grow (runM : Server → Option GoError)
    (hs : List Server) (c : Bool) (a : List Server) :
    ∃ t, (handlesLoop runM hs c a).2 = a ++ t := by
  induction hs generalizing c a with
  | nil => exact ⟨[], by simp [handlesLoop]⟩
  | cons srv rest ih =>
    simp only [handlesLoop]
    by_cases hc : c
    · simpa [hc] using ih c a
    · simp only [hc, if_false, Bool.false_eq_true]
      cases runM srv with
      | some e =>
        obtain ⟨t, ht⟩ := ih false (a ++ [srv])
        exact ⟨srv :: t, by simp [ht]⟩
      | none =>
        obtain ⟨t, ht⟩ := ih true (a ++ [srv])
        exact ⟨srv :: t, by simp [ht]⟩

theorem handlesLoop_second_attempt (f : Server → Option GoError) (srv1 srv2 : Server)
    (rest : List Server) (e : GoError) (h1 : f srv1 = some e) :
    srv2 ∈ (handlesLoop f (srv1 :: srv2 :: rest) false []).2 := by
  have step1 : handlesLoop f (srv1 :: srv2 :: rest) false []
      = handlesLoop f (srv2 :: rest) false [srv1] := by
    simp [handlesLoop, h1]
  rw [step1]
  cases h2 : f srv2 with
  | some e2 =>
    have step2 : handlesLoop f (srv2 :: rest) false [srv1]
        = handlesLoop f rest false [srv1, srv2] := by
      simp [handlesLoop, h2]
    rw [step2]
    obtain ⟨t, ht⟩ := handlesLoop_attempts_grow f rest false [srv1, srv2]
    rw [ht]; simp
  | none =>
    have step2 : handlesLoop f (srv2 :: rest) false [srv1]
        = handlesLoop f rest true [srv1, srv2] := by
      simp [handlesLoop, h2]
    rw [step2]
    obtain ⟨t, ht⟩ := handlesLoop_attempts_grow f rest true [srv1, srv2]
    rw [ht]; simp

/-- C5 counterexample: two error-free outcomes with handles, the manifest
command failing on the first server and succeeding on the second. The
claim says the command is not retried on a different server within this
step (so no manifest would be created and the step would fail); the code
retries on the second server and the step succeeds. -/
theorem buildMultiArchContainer_retries_counterexample :
    (let srv1 : Server := ⟨"windows-builder-1", ⟨"10.0.0.1", "builder", "pw1", "b", "ws1"⟩⟩
     let srv2 : Server := ⟨"windows-builder-2", ⟨"10.0.0.2", "builder", "pw2", "b", "ws2"⟩⟩
     let runManifest : Server → String → Option GoError := fun srv _ =>
       if srv.remote.Hostname = "10.0.0.1" then some (.simple "manifest create failed") else none
     let bss : List BuilderServerStatus := [⟨some srv1, none⟩, ⟨some srv2, none⟩]
     (∀ bs ∈ bss, bs.err = none)
     ∧ runManifest srv1 (constructArgsOfManifestCreateCommand "img:tag" [("2004", "famA")])
         = some (.simple "manifest create failed")
     ∧ manifestAttempts "img:tag" [("2004", "famA")] runManifest bss = [srv1, srv2]
     ∧ srv1 ≠ srv2
     ∧ buildMultiArchContainer "img:tag" [("2004", "famA")] runManifest bss = none) := by
  refine ⟨by decide, by decide, by decide, by decide, by decide⟩

/-- C5 amended: in that setting the code *does* retry the manifest command
on the next server carrying a handle, and it returns an error iff the
command succeeded on none of the servers carrying handles (iff no manifest
was ultimately created). -/
theorem buildMultiArchContainer_retry_semantics (containerImageName : String)
    (m : List (String × String)) (runManifest : Server → String → Option GoError)
    (bss : List BuilderServerStatus) (srv1 srv2 : Server) (restHandles : List Server)
    (e : GoError)
    (herrfree : ∀ bs ∈ bss, bs.err = none)
    (hhandles : bss.filterMap (fun bs => bs.s) = srv1 :: srv2 :: restHandles)
    (hfail : runManifest srv1 (constructArgsOfManifestCreateCommand containerImageName m)
      = some e) :
    srv2 ∈ manifestAttempts containerImageName m runManifest bss
    ∧ (buildMultiArchContainer containerImageName m runManifest bss = none ↔
        ∃ srv ∈ bss.filterMap (fun bs => bs.s),
          runManifest srv (constructArgsOfManifestCreateCommand containerImageName m) = none) := by
  constructor
  · unfold manifestAttempts
    rw [manifestLoop_eq_handlesLoop, hhandles]
    exact handlesLoop_second_attempt _ srv1 srv2 restHandles e hfail
  · unfold buildMultiArchContainer
    rw [manifestLoop_eq_handlesLoop, handlesLoop_created]
    simp only [Bool.false_or]
    constructor
    · intro h
      by_cases hany : ((bss.filterMap fun bs => bs.s).any
          (fun srv => (runManifest srv (constructArgsOfManifestCreateCommand containerImageName m)).isNone)) = true
      · obtain ⟨srv, hmem, hnone⟩ := List.any_eq_true.mp hany
        exact ⟨srv, hmem, Option.isNone_iff_eq_none.mp hnone⟩
      · rw [if_neg] at h
        · exact absurd h (by simp)
        · simpa using hany
    · intro ⟨srv, hmem, hnone⟩
      rw [if_pos]
      exact List.any_eq_true.mpr ⟨srv, hmem, by simp [hnone]⟩

/-- C5 amended witness: the counterexample scenario instantiates the amended
statement. -/
theorem buildMultiArchContainer_retry_semantics_witness :
    (let srv1 : Server := ⟨"wb-1", ⟨"10.1.0.1", "builder", "p1", "b", "w1"⟩⟩
     let srv2 : Server := ⟨"wb-2", ⟨"10.1.0.2", "builder", "p2", "b", "w2"⟩⟩
     let runManifest : Server → String → Option GoError := fun srv _ =>
       if srv.remote.Hostname = "10.1.0.1" then some (.simple "failed") else none
     let bss : List BuilderServerStatus := [⟨some srv1, none⟩, ⟨some srv2, none⟩]
     srv2 ∈ manifestAttempts "i:t" [("2004", "famA")] runManifest bss
     ∧ (buildMultiArchContainer "i:t" [("2004", "famA")] runManifest bss = none ↔
        ∃ srv ∈ bss.filterMap (fun bs => bs.s),
          runManifest srv (constructArgsOfManifestCreateCommand "i:t" [("2004", "famA")]) = none)) :=
  buildMultiArchContainer_retry_semantics "i:t" [("2004", "famA")]
    (fun srv _ => if srv.remote.Hostname = "10.1.0.1" then some (.simple "failed") else none)
    [⟨some ⟨"wb-1", ⟨"10.1.0.1", "builder", "p1", "b", "w1"⟩⟩, none⟩,
      ⟨some ⟨"wb-2", ⟨"10.1.0.2", "builder", "p2", "b", "w2"⟩⟩, none⟩]
    ⟨"wb-1", ⟨"10.1.0.1", "builder", "p1", "b", "w1"⟩⟩
    ⟨"wb-2", ⟨"10.1.0.2", "builder", "p2", "b", "w2"⟩⟩
    [] (.simple "failed")
    (by decide) (by decide) (by decide)

/-- The attempted version map of the C6 end-to-end scenario: 2004 and
ltsc2019, the latter with an image family that no longer exists. -/
def c6VersionMap : List (String × String) :=
  [("2004", "windows-cloud/global/images/family/windows-2004-core"),
    ("ltsc2019", "windows-cloud/global/images/family/windows-2019-core-for-containers")]

/-- The build server the 2004 build of the C6 scenario runs on. -/
def c6Server : Server :=
  ⟨"windows-builder-2004", ⟨"10.2.0.4", "builder", "pw", "bucket", "ws"⟩⟩

/-- The per-version environment of the C6 scenario: creating the ltsc2019
instance fails with the GCE 404 naming its image family; the 2004 build
succeeds end to end. -/
def c6Env : String → String → BuildEnv := fun _ imageFamily =>
  if imageFamily = "windows-cloud/global/images/family/windows-2019-core-for-containers" then
    ⟨(none, none),
      .error (.gceAPIError 404
        "googleapi: Error 404: The resource projects/windows-cloud/global/images/family/windows-2019-core-for-containers was not found"),
      fun _ => none, fun _ => none, fun _ => none⟩
  else
    ⟨(none, none), .ok c6Server, fun _ => none, fun _ => none, fun _ => none⟩

/-- C6 counterexample: in the scenario where the ltsc2019 family does not
exist and the 2004 build succeeds, the run succeeds — but the argument
string of the manifest-create command still contains the ltsc2019-suffixed
reference, which the claim says is omitted (`constructArgsOfManifestCreateCommand`
iterates the full picked version map, not the successful outcomes). -/
theorem manifest_args_include_skipped_counterexample :
    (process (some false) "gcr.io/demo/app:cloudbuild" c6VersionMap c6Env (fun _ _ => none)).1 = none
    ∧ goStringContains
        (constructArgsOfManifestCreateCommand "gcr.io/demo/app:cloudbuild" c6VersionMap)
        "gcr.io/demo/app:cloudbuild_ltsc2019" = true := by
  refine ⟨by decide, by decide⟩

/-- C6 amended: in that scenario the skipped version's outcome is (nil, nil),
the run succeeds, and the manifest-create argument string is the bare
image:tag followed by a suffixed reference for *every* attempted version —
the ltsc2019 one included (`docker manifest create` tolerates references to
images that do not exist). -/
theorem manifest_args_amended :
    buildSingleArchContainer (some false)
        (c6Env "ltsc2019" "windows-cloud/global/images/family/windows-2019-core-for-containers")
        "windows-cloud/global/images/family/windows-2019-core-for-containers"
      = ⟨none, none⟩
    ∧ (process (some false) "gcr.io/demo/app:cloudbuild" c6VersionMap c6Env (fun _ _ => none)).1 = none
    ∧ constructArgsOfManifestCreateCommand "gcr.io/demo/app:cloudbuild" c6VersionMap
      = "gcr.io/demo/app:cloudbuild gcr.io/demo/app:cloudbuild_2004 gcr.io/demo/app:cloudbuild_ltsc2019" := by
  refine ⟨by decide, by decide, by decide⟩

theorem buildSingleArchContainer_skip (reuseBuilderInstances : Option Bool)
    (env : BuildEnv) (imageFamily : String) (e0 : Option GoError) (err : GoError)
    (hfind : env.findExisting = (none, e0))
    (hnew : env.newServer = .error err)
    (h404 : isImageNotFoundErr err imageFamily = true) :
    buildSingleArchContainer reuseBuilderInstances env imageFamily = ⟨none, none⟩ := by
  unfold buildSingleArchContainer
  cases reuseBuilderInstances <;> simp [hfind, hnew, h404]

/-- C2: a version whose instance creation fails with an error recognized by
`isImageNotFoundErr` (googleapi code 404, message naming the image family)
yields the outcome (nil, nil) rather than an error, and the whole run
(`process`) still succeeds when every other version's build succeeds and
the manifest command succeeds. -/
theorem image_not_found_skips_version (reuseBuilderInstances : Option Bool)
    (containerImageName ver fam : String) (m : List (String × String))
    (envOf : String → String → BuildEnv) (runManifest : Server → String → Option GoError)
    (e0 : Option GoError) (err : GoError)
    (hmem : (ver, fam) ∈ m)
    (hfind : (envOf ver fam).findExisting = (none, e0))
    (hnew : (envOf ver fam).newServer = .error err)
    (h404 : isImageNotFoundErr err fam = true)
    (hothers : ∀ p ∈ m, p ≠ (ver, fam) →
      ∃ srv, buildSingleArchContainer reuseBuilderInstances (envOf p.1 p.2) p.2
        = ⟨some srv, none⟩)
    (hsomeOther : ∃ p ∈ m, p ≠ (ver, fam))
    (hmanifest : ∀ srv args, runManifest srv args = none) :
    buildSingleArchContainer reuseBuilderInstances (envOf ver fam) fam = ⟨none, none⟩
    ∧ (process reuseBuilderInstances containerImageName m envOf runManifest).1 = none := by
  have hskip := buildSingleArchContainer_skip reuseBuilderInstances (envOf ver fam) fam e0 err
    hfind hnew h404
  refine ⟨hskip, ?_⟩
  have herrnone : ∀ p ∈ m,
      (buildSingleArchContainer reuseBuilderInstances (envOf p.1 p.2) p.2).err = none := by
    intro p hp
    by_cases hpe : p = (ver, fam)
    · subst hpe; rw [hskip]
    · obtain ⟨srv, hsrv⟩ := hothers p hp hpe
      rw [hsrv]
  have hnil : ((([] : List BuilderServerStatus) ++ m.map fun p =>
      buildSingleArchContainer reuseBuilderInstances (envOf p.1 p.2) p.2).filterMap
        fun bs => bs.err) = [] := by
    rw [List.filterMap_eq_nil_iff]
    intro e he
    simp only [List.nil_append, List.mem_map] at he
    obtain ⟨p, hp, rfl⟩ := he
    exact herrnone p hp
  have hbuild : buildSingleArchContainers m
      (fun ver2 imageFamily =>
        buildSingleArchContainer reuseBuilderInstances (envOf ver2 imageFamily) imageFamily) []
      = (m.map (fun p => buildSingleArchContainer reuseBuilderInstances (envOf p.1 p.2) p.2),
          none) := by
    rw [buildSingleArchContainers_eq]
    unfold buildSingleArchContainersCore
    rw [if_neg (by simp), hnil]
    simp
  unfold process
  rw [hbuild]
  show buildMultiArchContainer containerImageName m runManifest
    (m.map fun p => buildSingleArchContainer reuseBuilderInstances (envOf p.1 p.2) p.2) = none
  unfold buildMultiArchContainer
  rw [manifestLoop_eq_handlesLoop, handlesLoop_created]
  rw [if_pos]
  obtain ⟨p0, hp0, hp0ne⟩ := hsomeOther
  obtain ⟨srv0, hsrv0⟩ := hothers p0 hp0 hp0ne
  simp only [Bool.false_or]
  refine List.any_eq_true.mpr ⟨srv0, ?_, by simp [hmanifest]⟩
  refine List.mem_filterMap.mpr ⟨⟨some srv0, none⟩, ?_, rfl⟩
  rw [← hsrv0]
  exact List.mem_map_of_mem _ hp0

/-- C2 witness: the two-version scenario with a vanished ltsc2019 family. -/
theorem image_not_found_skips_version_witness :
    buildSingleArchContainer (some false)
        (c6Env "ltsc2019" "windows-cloud/global/images/family/windows-2019-core-for-containers")
        "windows-cloud/global/images/family/windows-2019-core-for-containers"
      = ⟨none, none⟩
    ∧ (process (some false) "eu.gcr.io/demo/app:v1" c6VersionMap c6Env (fun _ _ => none)).1 = none :=
  image_not_found_skips_version (some false) "eu.gcr.io/demo/app:v1" "ltsc2019"
    "windows-cloud/global/images/family/windows-2019-core-for-containers"
    c6VersionMap c6Env (fun _ _ => none) none
    (.gceAPIError 404
      "googleapi: Error 404: The resource projects/windows-cloud/global/images/family/windows-2019-core-for-containers was not found")
    (by decide) (by decide) (by decide) (by decide)
    (by
      intro p hp hne
      have : p = ("2004", "windows-cloud/global/images/family/windows-2004-core") := by
        simp only [c6VersionMap, List.mem_cons, List.not_mem_nil, or_false] at hp
        rcases hp with h | h
        · exact h
        · exact absurd h hne
      subst this
      exact ⟨c6Server, by decide⟩)
    ⟨("2004", "windows-cloud/global/images/family/windows-2004-core"), by decide, by decide⟩
    (fun _ _ => rfl)

theorem urlNeEmpty (x y z : String) : computeUrlPrefix ++ x ++ y ++ z ≠ "" := by
  apply stringAppend_ne_empty
  rw [String.length_append, String.length_append]
  have hp : 0 < computeUrlPrefix.length := by decide
  omega

/-- C4: resolving the flags with an empty network project and a subnetwork
project different from the instance project yields a Shared-VPC
configuration in which both `InstanceNetworkUrls` (instance creation) and
`ProjectNetworkUrls` (firewall check) return an empty network url — the
network is inferred; resolving them with the network project explicitly
equal to the instance project yields a non-empty network url from both,
explicitly stating the network. -/
theorem shared_vpc_network_inference (instanceProject network networkProject subnet
    subnetProject region : String) :
    (networkProject = "" → subnetProject ≠ "" → subnetProject ≠ instanceProject →
      (InstanceNetworkUrls (NewInstanceNetworkConfig instanceProject network networkProject
          subnet subnetProject region) instanceProject).1 = ""
      ∧ (ProjectNetworkUrls (NewInstanceNetworkConfig instanceProject network networkProject
          subnet subnetProject region) instanceProject).1 = "")
    ∧ (networkProject = instanceProject → networkProject ≠ "" →
      (InstanceNetworkUrls (NewInstanceNetworkConfig instanceProject network networkProject
          subnet subnetProject region) instanceProject).1 ≠ ""
      ∧ (ProjectNetworkUrls (NewInstanceNetworkConfig instanceProject network networkProject
          subnet subnetProject region) instanceProject).1 ≠ "") := by
  constructor
  · intro hnp hsp hspi
    have hshared : usingSharedVPC ⟨network, networkProject, subnet, subnetProject, region⟩
        = true := by
      simp [usingSharedVPC, hnp, hsp]
    have hresolved : NewInstanceNetworkConfig instanceProject network networkProject
        subnet subnetProject region
        = ⟨network, networkProject, subnet, subnetProject, region⟩ := by
      unfold NewInstanceNetworkConfig
      rw [if_pos hshared]
    rw [hresolved]
    unfold InstanceNetworkUrls ProjectNetworkUrls
    rw [if_pos hshared, if_pos hshared]
    exact ⟨rfl, rfl⟩
  · intro heq hne
    have hbeq : (networkProject == "") = false := by
      simp [hne]
    by_cases hsp : subnetProject = ""
    · have hresolved : NewInstanceNetworkConfig instanceProject network networkProject
          subnet subnetProject region
          = ⟨network, networkProject, subnet, instanceProject, region⟩ := by
        unfold NewInstanceNetworkConfig
        rw [if_neg (by simp [usingSharedVPC, hbeq])]
        simp [hbeq, hsp]
      have hsv : usingSharedVPC ⟨network, networkProject, subnet, instanceProject, region⟩
          = false := by
        simp [usingSharedVPC, hbeq]
      rw [hresolved]
      unfold InstanceNetworkUrls ProjectNetworkUrls
      rw [if_neg (by simp [hsv]), if_neg (by simp [hsv])]
      exact ⟨urlNeEmpty _ _ _, urlNeEmpty _ _ _⟩
    · have hresolved : NewInstanceNetworkConfig instanceProject network networkProject
          subnet subnetProject region
          = ⟨network, networkProject, subnet, subnetProject, region⟩ := by
        unfold NewInstanceNetworkConfig
        rw [if_neg (by simp [usingSharedVPC, hbeq])]
        simp [hbeq, hsp]
      have hsv : usingSharedVPC ⟨network, networkProject, subnet, subnetProject, region⟩
          = false := by
        simp [usingSharedVPC, hbeq]
      rw [hresolved]
      unfold InstanceNetworkUrls ProjectNetworkUrls
      rw [if_neg (by simp [hsv]), if_neg (by simp [hsv])]
      exact ⟨urlNeEmpty _ _ _, urlNeEmpty _ _ _⟩

/-- C4 witness: a Shared-VPC flag set and an explicit same-project flag
set. -/
theorem shared_vpc_network_inference_witness :
    ((InstanceNetworkUrls (NewInstanceNetworkConfig "proj-a" "default" "" "default"
        "host-proj" "us-central1") "proj-a").1 = ""
      ∧ (ProjectNetworkUrls (NewInstanceNetworkConfig "proj-a" "default" "" "default"
        "host-proj" "us-central1") "proj-a").1 = "")
    ∧ ((InstanceNetworkUrls (NewInstanceNetworkConfig "proj-a" "default" "proj-a" "default"
        "" "us-central1") "proj-a").1 ≠ ""
      ∧ (ProjectNetworkUrls (NewInstanceNetworkConfig "proj-a" "default" "proj-a" "default"
        "" "us-central1") "proj-a").1 ≠ "") :=
  ⟨(shared_vpc_network_inference "proj-a" "default" "" "default" "host-proj" "us-central1").1
      rfl (by decide) (by decide),
    (shared_vpc_network_inference "proj-a" "default" "proj-a" "default" "" "us-central1").2
      rfl (by decide)⟩

theorem processResponses_skips (submittedModulus : String) (env : CryptoEnv)
    (line : ConsoleLine) (rest : List ConsoleLine)
    (hskip : lineSkipped submittedModulus line = true) :
    processResponses submittedModulus env (line :: rest)
      = processResponses submittedModulus env rest := by
  cases line with
  | malformed raw => rfl
  | response wpr =>
    simp only [lineSkipped, bne_iff_ne, ne_eq] at hskip
    simp [processResponses, hskip]

theorem processResponses_all_skipped (submittedModulus : String) (env : CryptoEnv)
    (responses : List ConsoleLine)
    (hskip : ∀ line ∈ responses, lineSkipped submittedModulus line = true) :
    processResponses submittedModulus env responses = none := by
  induction responses with
  | nil => rfl
  | cons line rest ih =>
    rw [processResponses_skips submittedModulus env line rest (hskip line (by simp))]
    exact ih (fun l hl => hskip l (List.mem_cons_of_mem _ hl))

/-- C7: during the credential-exchange poll loop, a console line that fails
to parse or whose modulus differs from the submitted one is skipped and
polling continues into the later reads, up to the deadline (exhausting the
reads yields the timeout error); a line whose modulus matches but whose
ciphertext fails base64 decoding — or decodes but fails RSA-OAEP
decryption — makes `resetWindowsPassword` return that error terminally,
with later reads never consulted. -/
theorem credential_poll_skip_and_terminal (submittedModulus : String) (env : CryptoEnv)
    (responses : List ConsoleLine) (laterPolls : List (Except GoError (List ConsoleLine)))
    (tail1 tail2 : List ConsoleLine)
    (wpr1 wpr2 : WindowsPasswordResponse) (eDecode eDecrypt : GoError) (bytes : List Nat)
    (hskip : ∀ line ∈ responses, lineSkipped submittedModulus line = true)
    (hmod1 : wpr1.Modulus = submittedModulus)
    (hb64bad : env.base64Decode wpr1.EncryptedPassword = .error eDecode)
    (hmod2 : wpr2.Modulus = submittedModulus)
    (hb64ok : env.base64Decode wpr2.EncryptedPassword = .ok bytes)
    (hdecbad : env.decryptOAEP bytes = .error eDecrypt) :
    resetWindowsPassword none none submittedModulus env (.ok responses :: laterPolls)
      = resetWindowsPassword none none submittedModulus env laterPolls
    ∧ resetWindowsPassword none none submittedModulus env []
      = .error (.simple "Could not retrieve password before timeout")
    ∧ resetWindowsPassword none none submittedModulus env
        (.ok (.response wpr1 :: tail1) :: laterPolls) = .error eDecode
    ∧ resetWindowsPassword none none submittedModulus env
        (.ok (.response wpr2 :: tail2) :: laterPolls) = .error eDecrypt := by
  refine ⟨?_, rfl, ?_, ?_⟩
  · show (match processResponses submittedModulus env responses with
      | some result => result
      | none => pollForPassword submittedModulus env laterPolls)
      = pollForPassword submittedModulus env laterPolls
    rw [processResponses_all_skipped submittedModulus env responses hskip]
  · show (match processResponses submittedModulus env (.response wpr1 :: tail1) with
      | some result => result
      | none => pollForPassword submittedModulus env laterPolls) = .error eDecode
    have h1 : processResponses submittedModulus env (.response wpr1 :: tail1)
        = some (.error eDecode) := by
      simp [processResponses, hmod1, hb64bad]
    rw [h1]
  · show (match processResponses submittedModulus env (.response wpr2 :: tail2) with
      | some result => result
      | none => pollForPassword submittedModulus env laterPolls) = .error eDecrypt
    have h2 : processResponses submittedModulus env (.response wpr2 :: tail2)
        = some (.error eDecrypt) := by
      simp [processResponses, hmod2, hb64ok, hdecbad]
    rw [h2]

/-- C7 witness: one poll read holding a malformed line and a mismatched
response, then a matching response with a bad ciphertext, then one with a
ciphertext that decodes but fails decryption. -/
theorem credential_poll_skip_and_terminal_witness :
    (let env : CryptoEnv :=
      ⟨fun s => if s = "good" then .ok [1, 2] else .error (.simple "illegal base64 data"),
        fun _ => .error (.simple "crypto/rsa: decryption error")⟩
     resetWindowsPassword none none "MODA" env
        (.ok [.malformed "garbage", .response ⟨"MODB", "x"⟩] :: [])
      = resetWindowsPassword none none "MODA" env []
    ∧ resetWindowsPassword none none "MODA" env []
      = .error (.simple "Could not retrieve password before timeout")
    ∧ resetWindowsPassword none none "MODA" env (.ok [.response ⟨"MODA", "bad"⟩] :: [])
      = .error (.simple "illegal base64 data")
    ∧ resetWindowsPassword none none "MODA" env (.ok [.response ⟨"MODA", "good"⟩] :: [])
      = .error (.simple "crypto/rsa: decryption error")) :=
  credential_poll_skip_and_terminal "MODA"
    ⟨fun s => if s = "good" then .ok [1, 2] else .error (.simple "illegal base64 data"),
      fun _ => .error (.simple "crypto/rsa: decryption error")⟩
    [.malformed "garbage", .response ⟨"MODB", "x"⟩] [] [] []
    ⟨"MODA", "bad"⟩ ⟨"MODA", "good"⟩
    (.simple "illegal base64 data") (.simple "crypto/rsa: decryption error") [1, 2]
    (by decide) rfl (by decide) rfl (by decide) (by decide)

/-- C8: a non-positive copy timeout makes `Copy` return the
argument-validation error with no winrmcp connection created and no bucket
or direct-copy call attempted (empty call trace); a non-positive run
timeout likewise makes `RunCommand` return its validation error before any
client, shell or execution call. -/
theorem copy_timeout_validation (cenv : CopyEnv) (renv : RunCommandEnv)
    (inputPath command path : String) (copyTimeout runTimeout : Int)
    (hcopy : copyTimeout ≤ 0) (hrun : runTimeout ≤ 0) :
    Copy cenv inputPath copyTimeout
      = (some (.simple "copy timeout must be greater than 0"), [])
    ∧ RunCommand renv command path runTimeout
      = (some (.simple "runTimeout must be greater than 0"), []) := by
  constructor
  · unfold Copy
    rw [if_pos hcopy]
  · unfold RunCommand
    rw [if_pos hrun]

/-- C8 witness: the copy-timeout flag set to zero. -/
theorem copy_timeout_validation_witness :
    ((0 : Int) ≤ 0)
    ∧ Copy ⟨.ok (), none, none⟩ "/workspace" 0
      = (some (.simple "copy timeout must be greater than 0"), [])
    ∧ RunCommand ⟨.ok (), .ok (), fun _ => .ok 0⟩ "docker -v" "ws" 0
      = (some (.simple "runTimeout must be greater than 0"), []) :=
  ⟨le_refl 0,
    (copy_timeout_validation ⟨.ok (), none, none⟩ ⟨.ok (), .ok (), fun _ => .ok 0⟩
      "/workspace" "docker -v" "ws" 0 0 (le_refl 0) (le_refl 0)).1,
    (copy_timeout_validation ⟨.ok (), none, none⟩ ⟨.ok (), .ok (), fun _ => .ok 0⟩
      "/workspace" "docker -v" "ws" 0 0 (le_refl 0) (le_refl 0)).2⟩

theorem buildOnServer_keeps_server (env : BuildEnv) (srv : Server) :
    (buildOnServer env srv).s = some srv := by
  unfold buildOnServer
  cases env.waitReady srv with
  | some e => rfl
  | none =>
    cases env.copyWorkspace srv with
    | some e => rfl
    | none =>
      cases env.buildRemote srv with
      | some e => rfl
      | none => rfl

/-- C10: the guard before the existing-instance lookup tests the flag
*pointer* for non-nil, which holds for every parsed flag value — so for any
boolean value of `--reuse-builder-instances`, `false` included, a matching
running instance found by `FindExistingInstance` is used as the build
server; and with the flag false `shutdownBuildServers` then deletes that
reused instance at teardown. -/
theorem reuse_lookup_always_runs (b : Bool) (env : BuildEnv) (imageFamily : String)
    (srv : Server) (e0 : Option GoError) (bss : List BuilderServerStatus)
    (hfind : env.findExisting = (some srv, e0)) :
    (buildSingleArchContainer (some b) env imageFamily).s = some srv
    ∧ (∀ bs ∈ bss, bs.s = some srv →
        ServerAction.deleteInstance srv ∈ shutdownBuildServers false bss) := by
  constructor
  · unfold buildSingleArchContainer
    simp only [Option.isSome_some, if_true, hfind]
    exact buildOnServer_keeps_server env srv
  · intro bs hbs hsrv
    unfold shutdownBuildServers
    rw [if_neg (by simp)]
    exact List.mem_filterMap.mpr ⟨bs, hbs, by rw [hsrv]; rfl⟩

/-- C10 witness: the flag parsed as false, a reusable instance found, and a
teardown list holding it. -/
theorem reuse_lookup_always_runs_witness :
    (let srv : Server := ⟨"windows-builder-reused", ⟨"10.3.0.1", "builder", "pw", "b", "ws"⟩⟩
     let env : BuildEnv := ⟨(some srv, none), .error (.simple "unused"),
       fun _ => none, fun _ => none, fun _ => none⟩
     (buildSingleArchContainer (some false) env "fam").s = some srv
     ∧ ServerAction.deleteInstance srv
        ∈ shutdownBuildServers false [⟨some srv, none⟩]) := by
  refine ⟨?_, ?_⟩
  · exact (reuse_lookup_always_runs false
      ⟨(some ⟨"windows-builder-reused", ⟨"10.3.0.1", "builder", "pw", "b", "ws"⟩⟩, none),
        .error (.simple "unused"), fun _ => none, fun _ => none, fun _ => none⟩
      "fam" ⟨"windows-builder-reused", ⟨"10.3.0.1", "builder", "pw", "b", "ws"⟩⟩ none []
      rfl).1
  · exact (reuse_lookup_always_runs false
      ⟨(some ⟨"windows-builder-reused", ⟨"10.3.0.1", "builder", "pw", "b", "ws"⟩⟩, none),
        .error (.simple "unused"), fun _ => none, fun _ => none, fun _ => none⟩
      "fam" ⟨"windows-builder-reused", ⟨"10.3.0.1", "builder", "pw", "b", "ws"⟩⟩ none
      [⟨some ⟨"windows-builder-reused", ⟨"10.3.0.1", "builder", "pw", "b", "ws"⟩⟩, none⟩]
      rfl).2 ⟨some ⟨"windows-builder-reused", ⟨"10.3.0.1", "builder", "pw", "b", "ws"⟩⟩, none⟩
      (by simp) rfl

/-! ## C9: the firewall preflight check -/

/-- Modelled from the spec: the claim's description of a satisfying firewall
rule — enabled (not disabled), direction INGRESS, scoped to the resolved
network URL, allowing protocol tcp on port 5986, and permitting ingress
from any source (the 0.0.0.0/0 range among its source ranges). -/
def specRuleAllowsWinRM (networkUrl : String) (rule : FirewallRule) : Bool :=
  !rule.Disabled && rule.Direction == "INGRESS" && rule.Network == networkUrl
    && rule.Allowed.any (fun a => a.IPProtocol == "tcp" && a.Ports.contains "5986")
    && rule.SourceRanges.contains "0.0.0.0/0"

/-- What the code actually tests about a rule's source ranges: the *first*
listed range is 0.0.0.0/0 (and the rule is enabled). -/
def headRangeIsOpen (rule : FirewallRule) : Bool :=
  match rule.SourceRanges with
  | [] => false
  | sr0 :: _ => sr0 == "0.0.0.0/0" && !rule.Disabled

/-- The full per-entry condition `winRMIngressIsAllowed` accepts should no
panic intervene. -/
def winRMEntryCond (networkUrl : String) (rule : FirewallRule)
    (a : FirewallAllowed) : Bool :=
  rule.Network == networkUrl && rule.Direction == "INGRESS" && a.IPProtocol == "tcp"
    && headRangeIsOpen rule && a.Ports.contains "5986"

/-- A rule the code accepts: some allowed entry passes `winRMEntryCond`. -/
def ruleMatchesWinRM (networkUrl : String) (rule : FirewallRule) : Bool :=
  rule.Allowed.any (winRMEntryCond networkUrl rule)

theorem allowedEntryCheck_ok (networkUrl : String) (rule : FirewallRule)
    (a : FirewallAllowed)
    (hnp : rule.Network = networkUrl → rule.Direction = "INGRESS" →
      a.IPProtocol = "tcp" → rule.SourceRanges ≠ []) :
    allowedEntryCheck networkUrl rule a = .ok (winRMEntryCond networkUrl rule a) := by
  unfold allowedEntryCheck winRMEntryCond
  by_cases hc : (rule.Network == networkUrl && rule.Direction == "INGRESS"
      && a.IPProtocol == "tcp") = true
  · rw [if_pos hc]
    simp only [Bool.and_eq_true, beq_iff_eq] at hc
    have hsr : rule.SourceRanges ≠ [] := hnp hc.1.1 hc.1.2 hc.2
    obtain ⟨sr0, srs, hsrc⟩ : ∃ sr0 srs, rule.SourceRanges = sr0 :: srs := by
      cases h : rule.SourceRanges with
      | nil => exact absurd h hsr
      | cons x xs => exact ⟨x, xs, rfl⟩
    rw [hsrc]
    have hopen_eq : headRangeIsOpen rule = (sr0 == "0.0.0.0/0" && !rule.Disabled) := by
      unfold headRangeIsOpen
      rw [hsrc]
    show (if (sr0 == "0.0.0.0/0" && !rule.Disabled) = true
        then Except.ok (a.Ports.contains "5986") else Except.ok false)
      = Except.ok (rule.Network == networkUrl && rule.Direction == "INGRESS"
          && a.IPProtocol == "tcp" && headRangeIsOpen rule && a.Ports.contains "5986")
    by_cases hopen : (sr0 == "0.0.0.0/0" && !rule.Disabled) = true
    · rw [if_pos hopen]
      simp [hc.1.1, hc.1.2, hc.2, hopen_eq, hopen]
    · rw [if_neg hopen]
      rw [Bool.not_eq_true] at hopen
      simp [hopen_eq, hopen]
  · rw [if_neg hc]
    rw [Bool.not_eq_true] at hc
    rcases Bool.and_eq_false_iff.mp hc with h1 | h2
    · rcases Bool.and_eq_false_iff.mp h1 with h3 | h4
      · simp [h3]
      · simp [h4]
    · simp [h2]

theorem scanAllowed_ok (networkUrl : String) (rule : FirewallRule)
    (entries : List FirewallAllowed)
    (hnp : ∀ a ∈ entries, rule.Network = networkUrl → rule.Direction = "INGRESS" →
      a.IPProtocol = "tcp" → rule.SourceRanges ≠ []) :
    scanAllowed networkUrl rule entries
      = .ok (entries.any (winRMEntryCond networkUrl rule)) := by
  induction entries with
  | nil => rfl
  | cons a rest ih =>
    rw [List.any_cons]
    unfold scanAllowed
    rw [allowedEntryCheck_ok networkUrl rule a (hnp a (by simp))]
    by_cases hent : winRMEntryCond networkUrl rule a = true
    · rw [hent]
      simp
    · rw [Bool.not_eq_true] at hent
      rw [hent]
      rw [ih (fun a2 ha2 => hnp a2 (List.mem_cons_of_mem _ ha2))]
      simp

theorem scanRules_ok (networkUrl : String) (rules : List FirewallRule)
    (hnp : ∀ rule ∈ rules, ∀ a ∈ rule.Allowed,
      rule.Network = networkUrl → rule.Direction = "INGRESS" →
      a.IPProtocol = "tcp" → rule.SourceRanges ≠ []) :
    scanRules networkUrl rules = .ok (rules.any (ruleMatchesWinRM networkUrl)) := by
  induction rules with
  | nil => rfl
  | cons rule rest ih =>
    rw [List.any_cons]
    unfold scanRules
    rw [show scanAllowed networkUrl rule rule.Allowed
      = .ok (ruleMatchesWinRM networkUrl rule) from
      scanAllowed_ok networkUrl rule rule.Allowed (hnp rule (by simp))]
    by_cases hrule : ruleMatchesWinRM networkUrl rule = true
    · rw [hrule]
      simp
    · rw [Bool.not_eq_true] at hrule
      rw [hrule]
      rw [ih (fun r hr => hnp r (List.mem_cons_of_mem _ hr))]
      simp

set_option maxRecDepth 8192 in
/-- C9 counterexample: a project whose only firewall rule satisfies every
condition the claim lists — enabled, INGRESS, scoped to the resolved
network URL, allowing tcp:5986, and permitting ingress from any source
(0.0.0.0/0 among its source ranges) — yet `CheckProjectFirewalls` fails
with the remediation error, because the code compares only the *first*
source range against 0.0.0.0/0. -/
theorem firewall_any_source_counterexample :
    (let url := (ProjectNetworkUrls (NewInstanceNetworkConfig "proj-a" "default" "proj-a"
        "default" "" "us-central1") "proj-a").1
     let rule : FirewallRule :=
       ⟨url, "INGRESS", ["10.0.0.0/8", "0.0.0.0/0"], false, [⟨"tcp", ["5986"]⟩]⟩
     specRuleAllowsWinRM url rule = true
     ∧ winRMIngressIsAllowed (fun _ => .ok [rule]) "proj-a" url = .ok false
     ∧ CheckProjectFirewalls none (fun _ => .ok [rule])
        (NewInstanceNetworkConfig "proj-a" "default" "proj-a" "default" "" "us-central1")
        "proj-a"
        = .ok (some (.simple (firewallRemediationMsg "proj-a" url)))) := by
  refine ⟨by decide, by decide, by decide⟩

set_option maxRecDepth 8192 in
/-- C9 amended: for a required project whose firewall listing succeeds, and
in which every rule scoped to the network URL with direction INGRESS and a
tcp allow-entry has a non-empty source-range list (an empty one panics the
check with an index-out-of-range error), the check succeeds iff some rule
is enabled, INGRESS, scoped to the URL, allows tcp on port 5986, and lists
0.0.0.0/0 as its *first* source range; a project lacking such a rule gets
the error naming the exact gcloud remediation command, and a setup failure
ends the run before `process` — instance creation — is ever consulted. -/
theorem firewall_check_amended (firewallsOf : String → Except GoError (List FirewallRule))
    (proj networkUrl : String) (rules : List FirewallRule)
    (hu : networkUrl ≠ "")
    (hlist : firewallsOf proj = .ok rules)
    (hnp : ∀ rule ∈ rules, ∀ a ∈ rule.Allowed,
      rule.Network = networkUrl → rule.Direction = "INGRESS" →
      a.IPProtocol = "tcp" → rule.SourceRanges ≠ []) :
    winRMIngressIsAllowed firewallsOf proj networkUrl
      = .ok (rules.any (ruleMatchesWinRM networkUrl))
    ∧ checkFirewallPairs firewallsOf [(proj, networkUrl)]
      = (if rules.any (ruleMatchesWinRM networkUrl) then .ok none
          else .ok (some (.simple (firewallRemediationMsg proj networkUrl))))
    ∧ goStringContains (firewallRemediationMsg proj networkUrl)
        "gcloud compute firewall-rules create" = true
    ∧ (∀ netConfig instanceProject,
        CheckProjectFirewalls none firewallsOf netConfig instanceProject
          = checkFirewallPairs firewallsOf
            [(netConfig.NetworkProject, (ProjectNetworkUrls netConfig instanceProject).1),
              (netConfig.SubnetProject, (ProjectNetworkUrls netConfig instanceProject).2)])
    ∧ (∀ (e : GoError) (p1 p2 : Unit → Option GoError),
        mainAfterSetup (some e) p1 = .fatalSetup e
        ∧ mainAfterSetup (some e) p1 = mainAfterSetup (some e) p2) := by
  have hwin : winRMIngressIsAllowed firewallsOf proj networkUrl
      = .ok (rules.any (ruleMatchesWinRM networkUrl)) := by
    unfold winRMIngressIsAllowed
    rw [hlist]
    exact scanRules_ok networkUrl rules hnp
  refine ⟨hwin, ?_, ?_, ?_, ?_⟩
  · unfold checkFirewallPairs
    rw [if_neg (by simp [hu]), hwin]
    by_cases hany : rules.any (ruleMatchesWinRM networkUrl) = true
    · rw [hany]; rfl
    · rw [Bool.not_eq_true] at hany
      rw [hany]; rfl
  · have hdata : (firewallRemediationMsg proj networkUrl).data
        = ("Project ".data ++ proj.data
            ++ " does not have a firewall rule to allow WinRM ingress. Please run:\n  ".data)
          ++ "gcloud compute firewall-rules create".data
          ++ (" --project=".data ++ proj.data
            ++ " allow-winrm-ingress --allow=tcp:5986 --direction=INGRESS --network=".data
            ++ networkUrl.data) := by
      unfold firewallRemediationMsg
      simp [String.data_append, List.append_assoc]
    unfold goStringContains
    rw [hdata]
    exact charsContain_of_infix _ _ _
  · intro netConfig instanceProject
    rfl
  · intro e p1 p2
    exact ⟨rfl, rfl⟩

/-- C9 amended witness: a project with one rule whose first source range is
0.0.0.0/0. -/
theorem firewall_check_amended_witness :
    (let rule : FirewallRule :=
       ⟨"net-url", "INGRESS", ["0.0.0.0/0"], false, [⟨"tcp", ["5986"]⟩]⟩
     winRMIngressIsAllowed (fun _ => .ok [rule]) "proj-b" "net-url"
      = .ok ([rule].any (ruleMatchesWinRM "net-url"))
     ∧ checkFirewallPairs (fun _ => .ok [rule]) [("proj-b", "net-url")]
      = (if [rule].any (ruleMatchesWinRM "net-url") then .ok none
          else .ok (some (.simple (firewallRemediationMsg "proj-b" "net-url"))))
     ∧ goStringContains (firewallRemediationMsg "proj-b" "net-url")
        "gcloud compute firewall-rules create" = true
     ∧ mainAfterSetup (some (.simple "setup failed")) (fun _ => none)
        = .fatalSetup (.simple "setup failed")) :=
  (fun h => ⟨h.1, h.2.1, h.2.2.1, (h.2.2.2.2 (.simple "setup failed")
      (fun _ => none) (fun _ => some (.simple "other"))).1⟩)
    (firewall_check_amended (fun _ => .ok [⟨"net-url", "INGRESS", ["0.0.0.0/0"], false,
        [⟨"tcp", ["5986"]⟩]⟩]) "proj-b" "net-url"
      [⟨"net-url", "INGRESS", ["0.0.0.0/0"], false, [⟨"tcp", ["5986"]⟩]⟩]
      (by decide) (by decide) (by decide))

end GkeWindowsBuilder
